import Mathlib

/-!
Verification of the solar-battery Monte Carlo simulator (`solar_sim`:
`Battery`, `NetConsumptionProfile`, `SolarBatterySim.simple_sim`,
`SolarBatterySim.multi_year_sim`, `SolarSimResult`).

The repository ships the module through a demo notebook
(`docs/demo_sim.ipynb`) whose recorded outputs pin down the numeric
behaviour of a reference run (three 13.5 KWh batteries at 5% reserve,
consumption mean -3.4645, ten simulated years).  The engine itself is
embedded here over exact rationals; the normal sampler is embedded as
`mean + stdv * noise` with an arbitrary noise stream standing for the
standard-normal draws, so every claim about the deterministic part of the
engine (capacity bookkeeping, outcome evaluation, aggregation, the
year-over-year degradation chain) is provable exactly, for every noise
stream.  Where the embedding fixes behaviour the prose leaves open, the
recorded notebook outputs are the authority: the reference run shows the
consumption mean moving from -3.4645 to -3.499145 = -3.4645 * (1 + 0.01)
in year 1, i.e. a negative mean degrades away from zero.
-/

namespace SolarSim

/-- Modelled from the spec: a battery with capacity, unusable reserve
fraction, and a per-year degradation curve. -/
structure Battery where
  capacity_KWh : ℚ
  reserve_pct : ℚ
  degredation_profile : List ℚ
deriving DecidableEq

/-- Modelled from the spec: accessible capacity is capacity times
(1 - reserve fraction). -/
def Battery.accessible_capacity (b : Battery) : ℚ :=
  b.capacity_KWh * (1 - b.reserve_pct)

/-- Modelled from the spec: net-consumption distribution parameters and a
per-year degradation curve. -/
structure NetConsumptionProfile where
  avg_net_consumption_KWh : ℚ
  stdv_net_consumption_KWh : ℚ
  degredation_profile : List ℚ
deriving DecidableEq

/-- Modelled from the spec: total nominal capacity of a fleet. -/
def fleet_total_capacity (bs : List Battery) : ℚ :=
  (bs.map Battery.capacity_KWh).sum

/-- Modelled from the spec: total accessible capacity of a fleet is the sum
of the members' accessible capacities. -/
def fleet_total_accessible_capacity (bs : List Battery) : ℚ :=
  (bs.map Battery.accessible_capacity).sum

/-- Modelled from the spec: the simulation configuration. -/
structure SolarBatterySim where
  label : String
  n_simulations : ℕ
  n_consecutive_days : ℕ
  batteries : List Battery
  profile : NetConsumptionProfile
deriving DecidableEq

/-- Modelled from the spec: the result container (`SolarSimResult`). -/
structure SolarSimResult where
  p_success : ℚ
  total_battery_capacity : ℚ
  total_accessible_capacity : ℚ
  avg_net_consumption : ℚ
  raw_outcomes : Option (List ℚ)
deriving DecidableEq

/-- Modelled from the spec: the scenario sampler draws `n_days` independent
normal values with the profile's mean and standard deviation.  A normal
draw is embedded as `mean + stdv * z` where `z` is the day's
standard-normal noise, supplied as an arbitrary stream. -/
def sample_scenario (p : NetConsumptionProfile) (n_days : ℕ) (noise : ℕ → ℚ) :
    List ℚ :=
  (List.range n_days).map
    (fun d => p.avg_net_consumption_KWh + p.stdv_net_consumption_KWh * noise d)

/-- Modelled from the spec: the outcome evaluator computes
`total_net = sum of sampled days + total accessible capacity` and declares
SUCCESS exactly when `total_net` is nonnegative. -/
def evaluate_outcome (days : List ℚ) (tac : ℚ) : Bool × ℚ :=
  (decide (0 ≤ days.sum + tac), days.sum + tac)

/-- Modelled from the spec: whether trial `t` of the configuration succeeds
under the given per-trial noise stream. -/
def trial_success (sim : SolarBatterySim) (noise : ℕ → ℕ → ℚ) (t : ℕ) : Bool :=
  (evaluate_outcome
    (sample_scenario sim.profile sim.n_consecutive_days (noise t))
    (fleet_total_accessible_capacity sim.batteries)).1

/-- Modelled from the spec: the number of successful trials among the
`n_simulations` trials. -/
def success_count (sim : SolarBatterySim) (noise : ℕ → ℕ → ℚ) : ℕ :=
  (List.range sim.n_simulations).countP (trial_success sim noise)

/-- Modelled from the spec: `simple_sim` runs `n_simulations` independent
trials, counts successes, and reports `p_success = successes /
n_simulations` next to the configured fleet and profile snapshots.
Raw outcomes are omitted by default. -/
def simple_sim (sim : SolarBatterySim) (noise : ℕ → ℕ → ℚ) : SolarSimResult :=
  { p_success := (success_count sim noise : ℚ) / (sim.n_simulations : ℚ)
    total_battery_capacity := fleet_total_capacity sim.batteries
    total_accessible_capacity := fleet_total_accessible_capacity sim.batteries
    avg_net_consumption := sim.profile.avg_net_consumption_KWh
    raw_outcomes := none }

/-- Modelled from the spec and the recorded notebook outputs: a battery
capacity degrades compoundingly, each listed fraction shrinking the current
value: `v * (1 - f)`. -/
def degrade_capacity_chain (c : ℚ) (fracs : List ℚ) : ℚ :=
  fracs.foldl (fun v f => v * (1 - f)) c

/-- Modelled from the recorded notebook outputs: the consumption mean
degrades compoundingly away from zero, each listed fraction moving the
current value to `v * (1 + f)` (the reference run records
-3.4645 to -3.499145 = -3.4645 * 1.01 in year 1, and so on through
year 5). -/
def degrade_mean_chain (m : ℚ) (fracs : List ℚ) : ℚ :=
  fracs.foldl (fun v f => v * (1 + f)) m

/-- Modelled from the spec: the battery as of year `k` (0 = undegraded);
its first `min k L` degradation fractions have been applied, so the value
plateaus once the profile is exhausted. -/
def Battery.at_year (b : Battery) (k : ℕ) : Battery :=
  { b with
    capacity_KWh :=
      degrade_capacity_chain b.capacity_KWh (b.degredation_profile.take k) }

/-- Modelled from the spec: the consumption profile as of year `k`
(0 = undegraded). -/
def NetConsumptionProfile.at_year (p : NetConsumptionProfile) (k : ℕ) :
    NetConsumptionProfile :=
  { p with
    avg_net_consumption_KWh :=
      degrade_mean_chain p.avg_net_consumption_KWh
        (p.degredation_profile.take k) }

/-- Modelled from the spec: the whole configuration as of year `k`; the
original configuration is never mutated. -/
def SolarBatterySim.at_year (sim : SolarBatterySim) (k : ℕ) :
    SolarBatterySim :=
  { sim with
    batteries := sim.batteries.map (Battery.at_year · k)
    profile := sim.profile.at_year k }

/-- Modelled from the spec: `multi_year_sim` evaluates years
`0 .. n_years - 1` in order, invoking `simple_sim` once per year on that
year's degraded configuration with the same `n_simulations` and
`n_consecutive_days`. -/
def multi_year_sim (sim : SolarBatterySim) (n_years : ℕ)
    (noise : ℕ → ℕ → ℕ → ℚ) : List SolarSimResult :=
  (List.range n_years).map (fun k => simple_sim (sim.at_year k) (noise k))

/-- Modelled from the spec: the error taxonomy for invalid configurations
(`ConfigurationError`), raised eagerly at construction or call time. -/
inductive ConfigurationError where
  | invalid_n_simulations
  | invalid_n_consecutive_days
  | invalid_stdv
  | invalid_reserve_pct
  | invalid_capacity
  | empty_fleet
  | invalid_n_years
deriving DecidableEq

/-- Modelled from the spec: eager fail-fast validation of a configuration,
checking n_simulations positive, n_consecutive_days at least 1, stdv
nonnegative, a nonempty fleet, positive capacities and reserve fractions
inside [0,1). -/
def validate_config (sim : SolarBatterySim) :
    Except ConfigurationError Unit :=
  if sim.n_simulations = 0 then
    Except.error ConfigurationError.invalid_n_simulations
  else if sim.n_consecutive_days < 1 then
    Except.error ConfigurationError.invalid_n_consecutive_days
  else if sim.profile.stdv_net_consumption_KWh < 0 then
    Except.error ConfigurationError.invalid_stdv
  else if sim.batteries.isEmpty then
    Except.error ConfigurationError.empty_fleet
  else if sim.batteries.any (fun b => decide (b.capacity_KWh ≤ 0)) then
    Except.error ConfigurationError.invalid_capacity
  else if sim.batteries.any
      (fun b => decide (b.reserve_pct < 0) || decide (1 ≤ b.reserve_pct))
    then Except.error ConfigurationError.invalid_reserve_pct
  else Except.ok ()

/-- Modelled from the spec: `simple_sim` behind fail-fast validation; an
invalid configuration yields the error and no result, valid ones run the
full simulation. -/
def simple_sim_checked (sim : SolarBatterySim) (noise : ℕ → ℕ → ℚ) :
    Except ConfigurationError SolarSimResult :=
  match validate_config sim with
  | Except.error e => Except.error e
  | Except.ok _ => Except.ok (simple_sim sim noise)

/-- Modelled from the spec: `multi_year_sim` behind fail-fast validation,
additionally requiring n_years at least 1. -/
def multi_year_sim_checked (sim : SolarBatterySim) (n_years : ℕ)
    (noise : ℕ → ℕ → ℕ → ℚ) :
    Except ConfigurationError (List SolarSimResult) :=
  match validate_config sim with
  | Except.error e => Except.error e
  | Except.ok _ =>
    if n_years < 1 then Except.error ConfigurationError.invalid_n_years
    else Except.ok (multi_year_sim sim n_years noise)

/-- A constant noise stream (its value is irrelevant for the deterministic
claims; zero is convenient for concrete witnesses). -/
def zero_noise : ℕ → ℕ → ℚ := fun _ _ => 0

/-- A constant per-year noise stream for `multi_year_sim` witnesses. -/
def zero_noise3 : ℕ → ℕ → ℕ → ℚ := fun _ _ _ => 0

/-- The demo notebook's battery: Battery(13.5, 0.05, [0.1, 0.05, 0.05]). -/
def demo_battery : Battery :=
  { capacity_KWh := 13.5
    reserve_pct := 0.05
    degredation_profile := [0.1, 0.05, 0.05] }

/-- The demo notebook's consumption profile:
NetConsumptionProfile(-3.4645, 10.004, [0.01, 0.01, 0.01, 0.01, 0.01]). -/
def demo_profile : NetConsumptionProfile :=
  { avg_net_consumption_KWh := -3.4645
    stdv_net_consumption_KWh := 10.004
    degredation_profile := [0.01, 0.01, 0.01, 0.01, 0.01] }

/-- The demo notebook's simulation configuration. -/
def demo_sim : SolarBatterySim :=
  { label := "Test_sim"
    n_simulations := 200000
    n_consecutive_days := 4
    batteries := [demo_battery, demo_battery, demo_battery]
    profile := demo_profile }

/-- A deterministic configuration (stdv = 0) used as concrete witness
input. -/
def det_sim : SolarBatterySim :=
  { label := "det"
    n_simulations := 3
    n_consecutive_days := 2
    batteries := [demo_battery]
    profile :=
      { avg_net_consumption_KWh := -3
        stdv_net_consumption_KWh := 0
        degredation_profile := [] } }

/-- A small configuration with one battery, used as concrete witness
input. -/
def fleet_sim_one : SolarBatterySim :=
  { label := "one"
    n_simulations := 3
    n_consecutive_days := 2
    batteries := [demo_battery]
    profile := demo_profile }

/-- The same small configuration with two batteries. -/
def fleet_sim_two : SolarBatterySim :=
  { label := "two"
    n_simulations := 3
    n_consecutive_days := 2
    batteries := [demo_battery, demo_battery]
    profile := demo_profile }

/-- An invalid configuration (zero simulations requested), used as
concrete witness input for the validation claim. -/
def bad_sim : SolarBatterySim :=
  { label := "bad"
    n_simulations := 0
    n_consecutive_days := 4
    batteries := [demo_battery]
    profile := demo_profile }

/-- Taking one more element of a list folds one more step, with the element
at index `k` (retrieved with any default, since `k` is in bounds). -/
theorem foldl_take_succ {α β : Type} (f : β → α → β) (l : List α) (v : β)
    (d : α) (k : ℕ) (hk : k < l.length) :
    (l.take (k + 1)).foldl f v = f ((l.take k).foldl f v) (l.getD k d) := by
  rw [List.take_succ, List.foldl_append]
  simp [List.getElem?_eq_getElem hk, List.getD, List.getElem?_eq_getElem hk]

/-- Year 0 applies no degradation to a battery. -/
theorem battery_at_year_zero (b : Battery) : b.at_year 0 = b := by
  cases b
  rfl

/-- Year 0 applies no degradation to a consumption profile. -/
theorem profile_at_year_zero (p : NetConsumptionProfile) :
    p.at_year 0 = p := by
  cases p
  rfl

/-- Year 0 leaves the whole configuration unchanged. -/
theorem sim_at_year_zero (sim : SolarBatterySim) :
    sim.at_year 0 = sim := by
  cases sim with
  | mk label ns nd bs p =>
    simp [SolarBatterySim.at_year, profile_at_year_zero,
      battery_at_year_zero]

/-- A negative mean stays negative along a degradation chain with
nonnegative fractions. -/
theorem degrade_mean_chain_neg (m : ℚ) (l : List ℚ) (hm : m < 0)
    (hl : ∀ f ∈ l, 0 ≤ f) : degrade_mean_chain m l < 0 := by
  induction l generalizing m with
  | nil => exact hm
  | cons f t ih =>
    have hf : 0 ≤ f := hl f (List.mem_cons_self f t)
    have step : m * (1 + f) < 0 :=
      mul_neg_of_neg_of_pos hm (by linarith)
    exact ih (m * (1 + f)) step (fun g hg => hl g (List.mem_cons_of_mem f hg))

/-- A positive capacity stays positive along a degradation chain with
fractions below 1. -/
theorem degrade_capacity_chain_pos (c : ℚ) (l : List ℚ) (hc : 0 < c)
    (hl : ∀ f ∈ l, f < 1) : 0 < degrade_capacity_chain c l := by
  induction l generalizing c with
  | nil => exact hc
  | cons f t ih =>
    have hf : f < 1 := hl f (List.mem_cons_self f t)
    have step : 0 < c * (1 - f) := mul_pos hc (by linarith)
    exact ih (c * (1 - f)) step (fun g hg => hl g (List.mem_cons_of_mem f hg))

/-- The modelled engine reproduces the notebook's recorded fleet snapshot:
total capacity 40.5 and total accessible capacity 38.475 for three
Battery(13.5, 0.05) units. -/
theorem demo_fleet_matches_notebook :
    fleet_total_capacity demo_sim.batteries = 40.5 ∧
    fleet_total_accessible_capacity demo_sim.batteries = 38.475 := by
  constructor <;>
    norm_num [fleet_total_capacity, fleet_total_accessible_capacity,
      Battery.accessible_capacity, demo_sim, demo_battery]

/-- The modelled degradation chain reproduces the notebook's recorded
year-by-year totals: capacities 36.45, 34.6275, 32.896125 for years 1-3
and the plateau thereafter, and means -3.499145 through
-3.64122431857145 for years 1-5 and the plateau thereafter. -/
theorem demo_degradation_matches_notebook :
    fleet_total_capacity (demo_sim.at_year 1).batteries = 36.45 ∧
    fleet_total_capacity (demo_sim.at_year 2).batteries = 34.6275 ∧
    fleet_total_capacity (demo_sim.at_year 3).batteries = 32.896125 ∧
    fleet_total_capacity (demo_sim.at_year 9).batteries = 32.896125 ∧
    (demo_sim.at_year 1).profile.avg_net_consumption_KWh = -3.499145 ∧
    (demo_sim.at_year 5).profile.avg_net_consumption_KWh
      = -3.64122431857145 ∧
    (demo_sim.at_year 9).profile.avg_net_consumption_KWh
      = -3.64122431857145 := by
  refine ⟨?_, ?_, ?_, ?_, ?_, ?_, ?_⟩ <;>
    norm_num [fleet_total_capacity, SolarBatterySim.at_year,
      Battery.at_year, NetConsumptionProfile.at_year,
      degrade_capacity_chain, degrade_mean_chain, demo_sim, demo_battery,
      demo_profile]

/-- C1: for every configuration with positive `n_simulations` and every
noise stream, `simple_sim` reports `p_success` equal to the number of
successful trials divided by `n_simulations`, which therefore lies in
the closed interval from 0 to 1. -/
theorem C1_p_success_is_success_fraction (sim : SolarBatterySim)
    (noise : ℕ → ℕ → ℚ) (h : 0 < sim.n_simulations) :
    (simple_sim sim noise).p_success =
      (success_count sim noise : ℚ) / (sim.n_simulations : ℚ) ∧
    0 ≤ (simple_sim sim noise).p_success ∧
    (simple_sim sim noise).p_success ≤ 1 := by
  refine ⟨rfl, ?_, ?_⟩
  · show (0 : ℚ) ≤ (success_count sim noise : ℚ) / (sim.n_simulations : ℚ)
    positivity
  have hcount : success_count sim noise ≤ sim.n_simulations := by
    calc success_count sim noise
        ≤ (List.range sim.n_simulations).length := List.countP_le_length _
      _ = sim.n_simulations := List.length_range _
  show (success_count sim noise : ℚ) / (sim.n_simulations : ℚ) ≤ 1
  apply div_le_one_of_le₀
  · exact_mod_cast hcount
  · positivity

/-- Witness for C1 at the small one-battery configuration. -/
theorem C1_witness :
    (simple_sim fleet_sim_one zero_noise).p_success =
      (success_count fleet_sim_one zero_noise : ℚ) /
        (fleet_sim_one.n_simulations : ℚ) ∧
    0 ≤ (simple_sim fleet_sim_one zero_noise).p_success ∧
    (simple_sim fleet_sim_one zero_noise).p_success ≤ 1 :=
  C1_p_success_is_success_fraction fleet_sim_one zero_noise (by decide)

/-- C2: for every sampled daily-consumption sequence and every fleet, the
outcome evaluator returns `total_net` equal to the sum of the sampled days
plus the fleet's total accessible capacity, and declares SUCCESS exactly
when `total_net` is nonnegative (FAILURE exactly when it is negative). -/
theorem C2_evaluate_outcome (days : List ℚ) (fleet : List Battery) :
    (evaluate_outcome days (fleet_total_accessible_capacity fleet)).2 =
      days.sum + fleet_total_accessible_capacity fleet ∧
    ((evaluate_outcome days (fleet_total_accessible_capacity fleet)).1
        = true ↔
      0 ≤ days.sum + fleet_total_accessible_capacity fleet) ∧
    ((evaluate_outcome days (fleet_total_accessible_capacity fleet)).1
        = false ↔
      days.sum + fleet_total_accessible_capacity fleet < 0) := by
  refine ⟨rfl, ?_, ?_⟩ <;> simp [evaluate_outcome]

/-- C3: for every battery with positive capacity and reserve fraction in
[0,1), the accessible capacity is capacity times (1 - reserve) and never
exceeds the capacity; a fleet's total accessible capacity is the sum over
its members. -/
theorem C3_accessible_capacity (b : Battery) (fleet : List Battery)
    (hc : 0 < b.capacity_KWh) (hr0 : 0 ≤ b.reserve_pct)
    (hr1 : b.reserve_pct < 1) :
    b.accessible_capacity = b.capacity_KWh * (1 - b.reserve_pct) ∧
    b.accessible_capacity ≤ b.capacity_KWh ∧
    fleet_total_accessible_capacity fleet =
      (fleet.map Battery.accessible_capacity).sum := by
  refine ⟨rfl, ?_, rfl⟩
  rw [Battery.accessible_capacity]
  nlinarith [mul_nonneg hc.le hr0]

/-- Witness for C3 at the demo battery (13.5 KWh at 5% reserve). -/
theorem C3_witness :
    demo_battery.accessible_capacity =
      demo_battery.capacity_KWh * (1 - demo_battery.reserve_pct) ∧
    demo_battery.accessible_capacity ≤ demo_battery.capacity_KWh ∧
    fleet_total_accessible_capacity [demo_battery, demo_battery] =
      ([demo_battery, demo_battery].map Battery.accessible_capacity).sum :=
  C3_accessible_capacity demo_battery [demo_battery, demo_battery]
    (by norm_num [demo_battery]) (by norm_num [demo_battery])
    (by norm_num [demo_battery])

/-- The battery capacity recurrence: year j+1 multiplies the year-j value
by (1 - fraction j). -/
theorem at_year_capacity_rec (b : Battery) (j : ℕ)
    (hj : j < b.degredation_profile.length) :
    (b.at_year (j + 1)).capacity_KWh =
      (b.at_year j).capacity_KWh *
        (1 - b.degredation_profile.getD j 0) := by
  simp only [Battery.at_year, degrade_capacity_chain]
  exact foldl_take_succ (fun v f => v * (1 - f)) b.degredation_profile
    b.capacity_KWh 0 j hj

/-- The consumption-mean recurrence: year j+1 multiplies the year-j value
by (1 + fraction j). -/
theorem at_year_mean_rec (p : NetConsumptionProfile) (j : ℕ)
    (hj : j < p.degredation_profile.length) :
    (p.at_year (j + 1)).avg_net_consumption_KWh =
      (p.at_year j).avg_net_consumption_KWh *
        (1 + p.degredation_profile.getD j 0) := by
  simp only [NetConsumptionProfile.at_year, degrade_mean_chain]
  exact foldl_take_succ (fun v f => v * (1 + f)) p.degredation_profile
    p.avg_net_consumption_KWh 0 j hj

/-- C4 as stated is false for the consumption mean: in the demo
configuration the year-1 mean is -3.499145 (exactly the value the
notebook records), which is the year-0 mean times (1 + 0.01), not the
year-0 mean times (1 - 0.01). -/
theorem C4_counterexample :
    (demo_sim.at_year 1).profile.avg_net_consumption_KWh = -3.499145 ∧
    (demo_sim.at_year 0).profile.avg_net_consumption_KWh = -3.4645 ∧
    (demo_sim.at_year 1).profile.avg_net_consumption_KWh ≠
      (demo_sim.at_year 0).profile.avg_net_consumption_KWh * (1 - 0.01) := by
  refine ⟨?_, ?_, ?_⟩ <;>
    norm_num [SolarBatterySim.at_year, NetConsumptionProfile.at_year,
      degrade_mean_chain, demo_sim, demo_profile]

/-- C4 amended: within the degradation profiles, each battery capacity
compounds as value times (1 - fraction) applied to the current
already-degraded value, the consumption mean compounds as value times
(1 + fraction), and year 0 carries the original undegraded values. -/
theorem C4_amended_degradation_recurrence (b : Battery)
    (p : NetConsumptionProfile) (k : ℕ) (hk : 0 < k)
    (hb : k ≤ b.degredation_profile.length)
    (hp : k ≤ p.degredation_profile.length) :
    (b.at_year k).capacity_KWh =
      (b.at_year (k - 1)).capacity_KWh *
        (1 - b.degredation_profile.getD (k - 1) 0) ∧
    (p.at_year k).avg_net_consumption_KWh =
      (p.at_year (k - 1)).avg_net_consumption_KWh *
        (1 + p.degredation_profile.getD (k - 1) 0) ∧
    (b.at_year 0).capacity_KWh = b.capacity_KWh ∧
    (p.at_year 0).avg_net_consumption_KWh = p.avg_net_consumption_KWh := by
  obtain ⟨j, rfl⟩ : ∃ j, k = j + 1 := ⟨k - 1, by omega⟩
  have hbj : j < b.degredation_profile.length := by omega
  have hpj : j < p.degredation_profile.length := by omega
  refine ⟨?_, ?_, ?_, ?_⟩
  · simpa using at_year_capacity_rec b j hbj
  · simpa using at_year_mean_rec p j hpj
  · rw [battery_at_year_zero]
  · rw [profile_at_year_zero]

/-- Witness for the amended C4 at the demo battery and profile, year 1. -/
theorem C4_witness :
    (demo_battery.at_year 1).capacity_KWh =
      (demo_battery.at_year 0).capacity_KWh *
        (1 - demo_battery.degredation_profile.getD 0 0) ∧
    (demo_profile.at_year 1).avg_net_consumption_KWh =
      (demo_profile.at_year 0).avg_net_consumption_KWh *
        (1 + demo_profile.degredation_profile.getD 0 0) ∧
    (demo_battery.at_year 0).capacity_KWh = demo_battery.capacity_KWh ∧
    (demo_profile.at_year 0).avg_net_consumption_KWh =
      demo_profile.avg_net_consumption_KWh :=
  C4_amended_degradation_recurrence demo_battery demo_profile 1
    (by decide) (by decide) (by decide)

/-- C5: a negative consumption mean is degraded away from zero: within the
profile's degradation profile the mean compounds as value times
(1 + fraction) — strictly more negative each year when the fractions are
positive — unlike a battery capacity, which is multiplied by
(1 - fraction). -/
theorem C5_negative_mean_degrades_away_from_zero (p : NetConsumptionProfile)
    (b : Battery) (k : ℕ) (hk : 0 < k)
    (hkL : k ≤ p.degredation_profile.length)
    (hkb : k ≤ b.degredation_profile.length)
    (hneg : p.avg_net_consumption_KWh < 0)
    (hfrac : ∀ f ∈ p.degredation_profile, 0 < f) :
    (p.at_year k).avg_net_consumption_KWh =
      (p.at_year (k - 1)).avg_net_consumption_KWh *
        (1 + p.degredation_profile.getD (k - 1) 0) ∧
    (p.at_year k).avg_net_consumption_KWh <
      (p.at_year (k - 1)).avg_net_consumption_KWh ∧
    (b.at_year k).capacity_KWh =
      (b.at_year (k - 1)).capacity_KWh *
        (1 - b.degredation_profile.getD (k - 1) 0) := by
  obtain ⟨j, rfl⟩ : ∃ j, k = j + 1 := ⟨k - 1, by omega⟩
  have hpj : j < p.degredation_profile.length := by omega
  have hbj : j < b.degredation_profile.length := by omega
  have hrec := at_year_mean_rec p j hpj
  have hprev : (p.at_year j).avg_net_consumption_KWh < 0 := by
    simp only [NetConsumptionProfile.at_year]
    exact degrade_mean_chain_neg _ _ hneg
      (fun f hf => (hfrac f (List.take_subset _ _ hf)).le)
  have hfr : 0 < p.degredation_profile.getD j 0 := by
    rw [List.getD_eq_getElem _ _ hpj]
    exact hfrac _ (List.getElem_mem hpj)
  refine ⟨by simpa using hrec, ?_, by simpa using at_year_capacity_rec b j hbj⟩
  simp only [Nat.add_sub_cancel]
  rw [hrec]
  nlinarith [mul_neg_of_neg_of_pos hprev hfr]

/-- Witness for C5 at the demo profile and battery, year 1. -/
theorem C5_witness :
    (demo_profile.at_year 1).avg_net_consumption_KWh =
      (demo_profile.at_year 0).avg_net_consumption_KWh *
        (1 + demo_profile.degredation_profile.getD 0 0) ∧
    (demo_profile.at_year 1).avg_net_consumption_KWh <
      (demo_profile.at_year 0).avg_net_consumption_KWh ∧
    (demo_battery.at_year 1).capacity_KWh =
      (demo_battery.at_year 0).capacity_KWh *
        (1 - demo_battery.degredation_profile.getD 0 0) :=
  C5_negative_mean_degrades_away_from_zero demo_profile demo_battery 1
    (by decide) (by decide) (by decide) (by norm_num [demo_profile])
    (by intro f hf; fin_cases hf <;> norm_num)

/-- C6: the year-0 entry of `multi_year_sim` is exactly the result of
calling `simple_sim` on the undegraded configuration with the same
`n_simulations`, `n_consecutive_days` and noise: all fields, the
descriptive snapshots and `p_success` included, coincide. -/
theorem C6_year0_matches_simple_sim (sim : SolarBatterySim) (n_years : ℕ)
    (noise : ℕ → ℕ → ℕ → ℚ) (h : 0 < n_years) :
    (multi_year_sim sim n_years noise).head? =
      some (simple_sim sim (noise 0)) := by
  obtain ⟨m, rfl⟩ : ∃ m, n_years = m + 1 := ⟨n_years - 1, by omega⟩
  rw [multi_year_sim, List.range_succ_eq_map]
  simp [sim_at_year_zero]

/-- Witness for C6 at the demo configuration with one simulated year. -/
theorem C6_witness :
    (multi_year_sim demo_sim 1 zero_noise3).head? =
      some (simple_sim demo_sim (zero_noise3 0)) :=
  C6_year0_matches_simple_sim demo_sim 1 zero_noise3 (by decide)

/-- C7: once the year index reaches a degradation profile's length, the
degraded value plateaus: it equals the value after the last profile entry
was applied, for every later year. -/
theorem C7_plateau_beyond_profile (b : Battery) (p : NetConsumptionProfile)
    (k : ℕ) (hb : b.degredation_profile.length ≤ k)
    (hp : p.degredation_profile.length ≤ k) :
    (b.at_year k).capacity_KWh =
      (b.at_year b.degredation_profile.length).capacity_KWh ∧
    (p.at_year k).avg_net_consumption_KWh =
      (p.at_year p.degredation_profile.length).avg_net_consumption_KWh := by
  constructor
  · simp [Battery.at_year, List.take_of_length_le hb,
      List.take_of_length_le (le_refl b.degredation_profile.length)]
  · simp [NetConsumptionProfile.at_year, List.take_of_length_le hp,
      List.take_of_length_le (le_refl p.degredation_profile.length)]

/-- Witness for C7 at the demo battery (profile length 3) and demo
consumption profile (length 5) in year 9. -/
theorem C7_witness :
    (demo_battery.at_year 9).capacity_KWh =
      (demo_battery.at_year
        demo_battery.degredation_profile.length).capacity_KWh ∧
    (demo_profile.at_year 9).avg_net_consumption_KWh =
      (demo_profile.at_year
        demo_profile.degredation_profile.length).avg_net_consumption_KWh :=
  C7_plateau_beyond_profile demo_battery demo_profile 9 (by decide)
    (by decide)

/-- C8: with zero standard deviation the simulation is deterministic:
every trial samples `n_consecutive_days` copies of the mean, and
`p_success` is exactly 1 when the total accessible capacity plus
`n_consecutive_days` times the mean is nonnegative and exactly 0
otherwise. -/
theorem C8_deterministic_when_stdv_zero (sim : SolarBatterySim)
    (noise : ℕ → ℕ → ℚ)
    (hstdv : sim.profile.stdv_net_consumption_KWh = 0)
    (hn : 0 < sim.n_simulations) :
    (∀ t, sample_scenario sim.profile sim.n_consecutive_days (noise t) =
      List.replicate sim.n_consecutive_days
        sim.profile.avg_net_consumption_KWh) ∧
    (0 ≤ fleet_total_accessible_capacity sim.batteries +
        sim.n_consecutive_days * sim.profile.avg_net_consumption_KWh →
      (simple_sim sim noise).p_success = 1) ∧
    (fleet_total_accessible_capacity sim.batteries +
        sim.n_consecutive_days * sim.profile.avg_net_consumption_KWh < 0 →
      (simple_sim sim noise).p_success = 0) := by
  have hsample : ∀ t,
      sample_scenario sim.profile sim.n_consecutive_days (noise t) =
        List.replicate sim.n_consecutive_days
          sim.profile.avg_net_consumption_KWh := by
    intro t
    simp [sample_scenario, hstdv, List.map_const]
  have hsum : ∀ t,
      (sample_scenario sim.profile sim.n_consecutive_days (noise t)).sum =
        (sim.n_consecutive_days : ℚ) *
          sim.profile.avg_net_consumption_KWh := by
    intro t
    rw [hsample t, List.sum_replicate, nsmul_eq_mul]
  have htrial : ∀ t, trial_success sim noise t =
      decide (0 ≤ (sim.n_consecutive_days : ℚ) *
          sim.profile.avg_net_consumption_KWh +
        fleet_total_accessible_capacity sim.batteries) := by
    intro t
    rw [trial_success, evaluate_outcome]
    rw [hsum t]
  refine ⟨hsample, ?_, ?_⟩
  · intro hpos
    have hcount : success_count sim noise = sim.n_simulations := by
      rw [success_count]
      rw [List.countP_eq_length.2]
      · exact List.length_range _
      · intro t ht
        rw [htrial t]
        simpa using by linarith
    show (success_count sim noise : ℚ) / (sim.n_simulations : ℚ) = 1
    rw [hcount]
    exact div_self (by exact_mod_cast hn.ne')
  · intro hneg
    have hcount : success_count sim noise = 0 := by
      rw [success_count]
      rw [List.countP_eq_zero.2]
      intro t ht
      rw [htrial t]
      simpa using by linarith
    show (success_count sim noise : ℚ) / (sim.n_simulations : ℚ) = 0
    rw [hcount]
    simp

/-- Witness for C8 at the deterministic configuration (one 13.5 KWh
battery, two days at mean -3, stdv 0): accessible capacity 12.825 covers
the 6 KWh draw, so every trial succeeds and p_success is exactly 1. -/
theorem C8_witness :
    sample_scenario det_sim.profile det_sim.n_consecutive_days
        (zero_noise 0) =
      List.replicate det_sim.n_consecutive_days
        det_sim.profile.avg_net_consumption_KWh ∧
    (simple_sim det_sim zero_noise).p_success = 1 := by
  have h := C8_deterministic_when_stdv_zero det_sim zero_noise
    (by norm_num [det_sim]) (by norm_num [det_sim])
  exact ⟨h.1 0, h.2.1 (by
    norm_num [det_sim, demo_battery, fleet_total_accessible_capacity,
      Battery.accessible_capacity])⟩

/-- C9: holding the consumption distribution, trial count, outage length
and sampled draws fixed, every trial that succeeds with the smaller total
accessible capacity also succeeds with the larger one, so `p_success` is
monotone nondecreasing in the fleet's total accessible capacity. -/
theorem C9_monotone_in_accessible_capacity (sim1 sim2 : SolarBatterySim)
    (noise : ℕ → ℕ → ℚ)
    (hprof : sim2.profile = sim1.profile)
    (hns : sim2.n_simulations = sim1.n_simulations)
    (hnd : sim2.n_consecutive_days = sim1.n_consecutive_days)
    (hcap : fleet_total_accessible_capacity sim1.batteries ≤
      fleet_total_accessible_capacity sim2.batteries) :
    (∀ t, trial_success sim1 noise t = true →
      trial_success sim2 noise t = true) ∧
    (simple_sim sim1 noise).p_success ≤
      (simple_sim sim2 noise).p_success := by
  have hmono : ∀ t, trial_success sim1 noise t = true →
      trial_success sim2 noise t = true := by
    intro t h1
    rw [trial_success, evaluate_outcome] at h1 ⊢
    rw [hprof, hnd]
    simp only [decide_eq_true_eq] at h1 ⊢
    linarith
  refine ⟨hmono, ?_⟩
  have hcount : success_count sim1 noise ≤ success_count sim2 noise := by
    rw [success_count, success_count, hns]
    exact List.countP_mono_left (fun t _ => hmono t)
  show (success_count sim1 noise : ℚ) / (sim1.n_simulations : ℚ) ≤
    (success_count sim2 noise : ℚ) / (sim2.n_simulations : ℚ)
  rw [hns, div_eq_mul_inv, div_eq_mul_inv]
  apply mul_le_mul_of_nonneg_right
  · exact_mod_cast hcount
  · positivity

/-- Witness for C9: one demo battery versus two, three trials of two days
with identical (zero) noise. -/
theorem C9_witness :
    (simple_sim fleet_sim_one zero_noise).p_success ≤
      (simple_sim fleet_sim_two zero_noise).p_success :=
  (C9_monotone_in_accessible_capacity fleet_sim_one fleet_sim_two
    zero_noise rfl rfl rfl
    (by norm_num [fleet_sim_one, fleet_sim_two,
      fleet_total_accessible_capacity, Battery.accessible_capacity,
      demo_battery])).2

/-- A configuration accepted by the fail-fast validation satisfies every
checked invariant. -/
theorem validate_config_ok (sim : SolarBatterySim) (u : Unit)
    (h : validate_config sim = Except.ok u) :
    ¬ sim.n_simulations = 0 ∧ ¬ sim.n_consecutive_days < 1 ∧
    ¬ sim.profile.stdv_net_consumption_KWh < 0 ∧
    (∀ b ∈ sim.batteries, 0 ≤ b.reserve_pct ∧ b.reserve_pct < 1) := by
  rw [validate_config] at h
  split_ifs at h with h1 h2 h3 h4 h5 h6
  refine ⟨h1, h2, h3, ?_⟩
  intro b hb
  refine ⟨not_lt.1 (fun hneg => h6 ?_), not_le.1 (fun hge => h6 ?_)⟩
  · exact List.any_eq_true.2 ⟨b, hb, by simp [hneg]⟩
  · exact List.any_eq_true.2 ⟨b, hb, by simp [hge]⟩

/-- C10: an invalid configuration — zero simulations, an outage shorter
than one day, a negative standard deviation, or a reserve fraction outside
[0,1) — makes both checked entry points fail eagerly with a
ConfigurationError and produce no result, and a multi-year run with fewer
than one year fails likewise. -/
theorem C10_invalid_config_fails_eagerly (sim : SolarBatterySim)
    (noise : ℕ → ℕ → ℚ) (noise3 : ℕ → ℕ → ℕ → ℚ) (n_years : ℕ) :
    ((sim.n_simulations = 0 ∨ sim.n_consecutive_days < 1 ∨
        sim.profile.stdv_net_consumption_KWh < 0 ∨
        (∃ b ∈ sim.batteries,
          b.reserve_pct < 0 ∨ 1 ≤ b.reserve_pct)) →
      (simple_sim_checked sim noise).isOk = false ∧
      (multi_year_sim_checked sim n_years noise3).isOk = false) ∧
    (n_years < 1 →
      (multi_year_sim_checked sim n_years noise3).isOk = false) := by
  constructor
  · intro hbad
    have hne : ∀ u : Unit, ¬ validate_config sim = Except.ok u := by
      intro u hok
      obtain ⟨h1, h2, h3, h4⟩ := validate_config_ok sim u hok
      rcases hbad with hb | hb | hb | ⟨b, hbmem, hb⟩
      · exact h1 hb
      · exact h2 hb
      · exact h3 hb
      · rcases hb with hb | hb
        · exact absurd hb (not_lt.2 (h4 b hbmem).1)
        · exact absurd hb (not_le.2 (h4 b hbmem).2)
    constructor
    · cases hval : validate_config sim with
      | error e => simp [simple_sim_checked, hval, Except.isOk, Except.toBool]
      | ok u => exact absurd hval (hne u)
    · cases hval : validate_config sim with
      | error e => simp [multi_year_sim_checked, hval, Except.isOk, Except.toBool]
      | ok u => exact absurd hval (hne u)
  · intro hy
    cases hval : validate_config sim with
    | error e => simp [multi_year_sim_checked, hval, Except.isOk, Except.toBool]
    | ok u => simp [multi_year_sim_checked, hval, Except.isOk, Except.toBool, hy]

/-- Witness for C10 at the invalid zero-simulation configuration and a
zero-year request. -/
theorem C10_witness :
    (simple_sim_checked bad_sim zero_noise).isOk = false ∧
    (multi_year_sim_checked bad_sim 0 zero_noise3).isOk = false := by
  have h := C10_invalid_config_fails_eagerly bad_sim zero_noise
    zero_noise3 0
  exact ⟨(h.1 (Or.inl (by decide))).1, h.2 (by decide)⟩

end SolarSim
